import Mathlib

/-!
Shallow embedding of the credential and request layer of the
`google-maps-cli` repository (files `auth.py`, `api.py`, `utils.py`),
together with theorems settling the behavioural claims about it.

Python values that can be a string, a credentials object or `None`
(the possible results of `check_auth`) are modelled by `PyAuthVal`;
Python truthiness of such values is modelled explicitly.  File-system
effects (path checks, token writes) and printed diagnostics are
modelled as an explicit event trace.  The outcome of the external
token-exchange step (`creds.refresh(Request())`) is an input of the
model: `some c` means the exchange succeeded and produced `c`,
`none` means it raised.
-/

namespace GoogleMapsCli

/-- OAuth credentials as seen through `google.oauth2.credentials.Credentials`:
an access token (possibly absent), an expiry flag, and an optional
refresh token. -/
structure OAuthCreds where
  token : Option String
  expired : Bool
  refreshToken : Option String
  deriving DecidableEq, Repr

/-- `Credentials.valid` in google-auth: a token is present and not expired. -/
def OAuthCreds.valid (c : OAuthCreds) : Bool :=
  c.token.isSome && !c.expired

/-- The stored token file for an account: missing, unparseable, or
holding credentials. -/
inductive StoredToken where
  | absent
  | malformed
  | stored (c : OAuthCreds)
  deriving DecidableEq, Repr

/-- The stored API-key file for an account: missing, unparseable, or
holding a key string. -/
inductive StoredKey where
  | absent
  | malformed
  | stored (k : String)
  deriving DecidableEq, Repr

/-- The persisted credential state of one account; a single account may
hold both a key and a token. -/
structure AuthState where
  storedToken : StoredToken
  storedKey : StoredKey
  deriving DecidableEq, Repr

/-- Observable side effects and printed diagnostics of the auth layer. -/
inductive Event where
  | checkTokenPath      -- `get_oauth_credentials` touched the token storage path
  | warnTokenLoad       -- "Warning: Could not load existing OAuth token"
  | refreshAttempt      -- a call to `creds.refresh(Request())`
  | writeToken          -- the refreshed token was persisted
  | errRefreshToken     -- "Error refreshing OAuth token"
  | checkKeyPath        -- `get_api_key` read the key file
  | warnKeyLoad         -- "Warning: Could not load API key"
  | msgNoOAuth          -- "No OAuth credentials found. Run 'maps init --oauth' ..."
  | msgNoAuth           -- "No authentication configured. Run 'maps init' ..."
  deriving DecidableEq, Repr

/-- A Python value that is either `None`, a string, or a credentials
object (the union of types `check_auth` can return). -/
inductive PyAuthVal where
  | vNone
  | vStr (s : String)
  | vCreds (c : OAuthCreds)
  deriving DecidableEq, Repr

/-- Python truthiness of a `PyAuthVal`: `None` is falsy, a string is
truthy iff nonempty, a credentials object is always truthy. -/
def PyAuthVal.truthy : PyAuthVal → Bool
  | .vNone => false
  | .vStr s => !s.isEmpty
  | .vCreds _ => true

/-- `auth.get_api_key`: read the key file; a missing file yields `None`
with no read, an unparseable file yields `None` with a warning. -/
def get_api_key : StoredKey → Option String × List Event
  | .absent => (none, [])
  | .malformed => (none, [.checkKeyPath, .warnKeyLoad])
  | .stored k => (some k, [.checkKeyPath])

/-- Result of `auth.get_oauth_credentials`: the returned credentials (or
`None`), the post-state of the token file, and the event trace. -/
structure OAuthOutcome where
  creds : Option OAuthCreds
  stored : StoredToken
  events : List Event
  deriving DecidableEq, Repr

/-- `auth.get_oauth_credentials` (with the OAuth libraries available):
load the stored token; if it is present but invalid, and it is expired
with a refresh token, attempt exactly one refresh — persisting the new
token on success, returning `None` on failure.  An invalid credential
that is not refreshable is returned as loaded. -/
def get_oauth_credentials (st : StoredToken) (refreshResult : Option OAuthCreds) :
    OAuthOutcome :=
  let loaded : Option OAuthCreds × List Event :=
    match st with
    | .absent => (none, [.checkTokenPath])
    | .malformed => (none, [.checkTokenPath, .warnTokenLoad])
    | .stored c => (some c, [.checkTokenPath])
  match loaded with
  | (none, ev) => ⟨none, st, ev⟩
  | (some c, ev) =>
    if c.valid then ⟨some c, st, ev⟩
    else if c.expired && c.refreshToken.isSome then
      match refreshResult with
      | some c' => ⟨some c', .stored c', ev ++ [.refreshAttempt, .writeToken]⟩
      | none => ⟨none, st, ev ++ [.refreshAttempt, .errRefreshToken]⟩
    else ⟨some c, st, ev⟩

/-- Result of `auth.check_auth`: the returned Python value, the
post-state of the token file, and the event trace. -/
structure AuthOutcome where
  result : PyAuthVal
  stored : StoredToken
  events : List Event
  deriving DecidableEq, Repr

/-- `auth.check_auth`: in OAuth mode, resolve via
`get_oauth_credentials` only; otherwise try the API key first and fall
back to the token path. -/
def check_auth (st : AuthState) (refreshResult : Option OAuthCreds)
    (useOauth : Bool) : AuthOutcome :=
  if useOauth then
    let o := get_oauth_credentials st.storedToken refreshResult
    match o.creds with
    | some c => ⟨.vCreds c, o.stored, o.events⟩
    | none => ⟨.vNone, o.stored, o.events ++ [.msgNoOAuth]⟩
  else
    let kOut := get_api_key st.storedKey
    let fallback : AuthOutcome :=
      let o := get_oauth_credentials st.storedToken refreshResult
      match o.creds with
      | some c => ⟨.vCreds c, o.stored, kOut.2 ++ o.events⟩
      | none => ⟨.vNone, o.stored, kOut.2 ++ o.events ++ [.msgNoAuth]⟩
    match kOut.1 with
    | some s => if s.isEmpty then fallback else ⟨.vStr s, st.storedToken, kOut.2⟩
    | none => fallback

/-- The ways `MapsAPI.__init__` can raise. -/
inductive InitError where
  | oauthNotAuthenticated   -- "Not authenticated with OAuth. Run 'maps init --oauth' first."
  | notAuthenticated        -- "Not authenticated. Run 'maps init' first."
  deriving DecidableEq, Repr

/-- The fields of a constructed `MapsAPI` client: `self.oauth_creds`
and `self.api_key` (the latter holds whatever `check_auth` returned). -/
structure ClientState where
  oauthCreds : Option OAuthCreds
  apiKey : PyAuthVal
  deriving DecidableEq, Repr

/-- `api.MapsAPI.__init__`: in OAuth mode resolve via
`check_auth(·, True)` and fail if falsy; otherwise store the
`check_auth(·, False)` result in `self.api_key` and, if that is falsy,
fall back to `check_auth(·, True)`. -/
def mapsApiInit (st : AuthState) (refreshResult : Option OAuthCreds)
    (useOauth : Bool) : Except InitError ClientState × List Event :=
  if useOauth then
    let o := check_auth st refreshResult true
    match o.result with
    | .vCreds c => (.ok ⟨some c, .vNone⟩, o.events)
    | _ => (.error .oauthNotAuthenticated, o.events)
  else
    let o := check_auth st refreshResult false
    if o.result.truthy then
      (.ok ⟨none, o.result⟩, o.events)
    else
      let o2 := check_auth st refreshResult true
      match o2.result with
      | .vCreds c => (.ok ⟨some c, o.result⟩, o.events ++ o2.events)
      | _ => (.error .notAuthenticated, o.events ++ o2.events)

/-- How `_make_request` injects the credential into the outgoing call:
a bearer header from the OAuth token, or a `key` query parameter
holding `self.api_key`. -/
inductive AuthInjection where
  | bearer (token : Option String)
  | keyParam (v : PyAuthVal)
  deriving DecidableEq, Repr

/-- The credential-handling preamble of `api.MapsAPI._make_request`
(lines before the HTTP call): if the client holds OAuth credentials
that are invalid, expired and refreshable, attempt one in-place
refresh (an exception from the exchange propagates, modelled as
`.error ()`), then send a bearer header; otherwise send the API key as
a query parameter. -/
def makeRequestAuthPrep (cs : ClientState) (refreshResult : Option OAuthCreds) :
    Except Unit (ClientState × AuthInjection) × List Event :=
  match cs.oauthCreds with
  | some c =>
    if !c.valid then
      if c.expired && c.refreshToken.isSome then
        match refreshResult with
        | some c' =>
          (.ok ({ cs with oauthCreds := some c' }, .bearer c'.token), [.refreshAttempt])
        | none => (.error (), [.refreshAttempt])
      else (.ok (cs, .bearer c.token), [])
    else (.ok (cs, .bearer c.token), [])
  | none => (.ok (cs, .keyParam cs.apiKey), [])

/-! ## Response classification (`_make_request`, after a 2xx transport result) -/

/-- An item of a `results` collection, abstracted to an identifier. -/
abbrev Item := Nat

/-- The parsed JSON body of a response, restricted to the fields the
core reads: `status`, `error_message`, `results`, `next_page_token`
(each possibly absent). -/
structure ResponseBody where
  status : Option String := some "OK"
  errorMessage : Option String := none
  results : Option (List Item) := none
  nextPageToken : Option String := none
  deriving DecidableEq, Repr

/-- The service-level rejection raised by `_make_request` as
`Exception(f"API Error ({status}): {error_msg}")`, kept structured. -/
structure RemoteAPIError where
  status : String
  message : String
  deriving DecidableEq, Repr

/-- `data.get("status") in ["OK", "ZERO_RESULTS"]`. -/
def checkStatus (s : Option String) : Bool :=
  s == some "OK" || s == some "ZERO_RESULTS"

/-- The body-inspection step of `_make_request` on a 2xx response:
status-field endpoints (`use_user_data_api=False`) reject every status
outside `OK`/`ZERO_RESULTS`, with defaults `UNKNOWN_ERROR` /
"Unknown error" for absent fields. -/
def classifyBody (useUserDataApi : Bool) (b : ResponseBody) :
    Except RemoteAPIError ResponseBody :=
  if !useUserDataApi && !checkStatus b.status then
    .error ⟨b.status.getD "UNKNOWN_ERROR", b.errorMessage.getD "Unknown error"⟩
  else
    .ok b

/-! ## Account Store (`utils.py`) -/

/-- The persisted accounts document `~/.google_maps_accounts.json`:
an optional `default_account` field and an optional `accounts` list.
A missing or unparseable file is read as the empty document. -/
structure AccountsConfig where
  defaultAccount : Option String := none
  accounts : Option (List String) := none
  deriving DecidableEq, Repr

/-- `utils.set_default_account`: set `default_account`, create the
`accounts` list if absent, append the name if not present, and write
the document back once. -/
def set_default_account (config : AccountsConfig) (name : String) :
    AccountsConfig :=
  let config := { config with defaultAccount := some name }
  let accts := match config.accounts with
    | none => []
    | some a => a
  let accts := if name ∈ accts then accts else accts ++ [name]
  { config with accounts := some accts }

/-! ## Pagination (`search_places` and `nearby_search`) -/

/-- A query-parameter dictionary, insertion-ordered. -/
abbrev Params := List (String × String)

/-- Python `params[k] = v`: replace in place if the key exists, else
append. -/
def setParam (ps : Params) (k v : String) : Params :=
  if ps.any (fun p => p.1 == k) then
    ps.map (fun p => if p.1 == k then (k, v) else p)
  else
    ps ++ [(k, v)]

/-- How a pagination run can fail: a service-level rejection on some
page, or the supplied response trace ran out while the loop still
wanted a page (no such physical response existed). -/
inductive RunError where
  | api (e : RemoteAPIError)
  | traceExhausted
  deriving DecidableEq, Repr

/-- The `results` collection of a body, absent read as empty. -/
def itemsOf (b : ResponseBody) : List Item :=
  b.results.getD []

/-- Number of items a body contributes. -/
def numItems (b : ResponseBody) : Nat :=
  (itemsOf b).length

/-- Total number of items across a list of bodies. -/
def totalItems (l : List ResponseBody) : Nat :=
  (l.map numItems).sum

/-- The items of a list of bodies, in page order. -/
def joinedItems (l : List ResponseBody) : List Item :=
  (l.map itemsOf).flatten

/-- The `while "next_page_token" in data and len(results) < max_results`
loop of `MapsAPI.search_places`, run against a trace of raw response
bodies (each classified by `_make_request`).  Returns the accumulated
items (after the final `results[:max_results]`) together with the
parameter dictionaries of every request issued so far. -/
def searchPlacesLoop : List ResponseBody → Nat → ResponseBody → Params →
    List Item → List Params → Except RunError (List Item × List Params)
  | [], maxResults, data, _params, results, log =>
    match data.nextPageToken with
    | none => .ok (results.take maxResults, log)
    | some _ =>
      if results.length < maxResults then .error .traceExhausted
      else .ok (results.take maxResults, log)
  | b :: rest, maxResults, data, params, results, log =>
    match data.nextPageToken with
    | none => .ok (results.take maxResults, log)
    | some tok =>
      if results.length < maxResults then
        let params' := setParam params "pagetoken" tok
        match classifyBody false b with
        | .error e => .error (.api e)
        | .ok data' =>
          let results' := match data'.results with
            | some rs => results ++ rs.take (maxResults - results.length)
            | none => results
          searchPlacesLoop rest maxResults data' params' results' (log ++ [params'])
      else .ok (results.take maxResults, log)

/-- The pagination portion of `MapsAPI.search_places` (from the initial
`_make_request` on), run against a trace of raw response bodies with
the already-built parameter dictionary. -/
def searchPlacesPaginate (bodies : List ResponseBody) (maxResults : Nat)
    (params : Params) : Except RunError (List Item × List Params) :=
  match bodies with
  | [] => .error .traceExhausted
  | b :: rest =>
    match classifyBody false b with
    | .error e => .error (.api e)
    | .ok data =>
      let results := match data.results with
        | some rs => rs.take maxResults
        | none => []
      searchPlacesLoop rest maxResults data params results [params]

/-- The pagination loop of `MapsAPI.nearby_search`, translated from its
own source lines. -/
def nearbySearchLoop : List ResponseBody → Nat → ResponseBody → Params →
    List Item → List Params → Except RunError (List Item × List Params)
  | [], maxResults, data, _params, results, log =>
    match data.nextPageToken with
    | none => .ok (results.take maxResults, log)
    | some _ =>
      if results.length < maxResults then .error .traceExhausted
      else .ok (results.take maxResults, log)
  | b :: rest, maxResults, data, params, results, log =>
    match data.nextPageToken with
    | none => .ok (results.take maxResults, log)
    | some tok =>
      if results.length < maxResults then
        let params' := setParam params "pagetoken" tok
        match classifyBody false b with
        | .error e => .error (.api e)
        | .ok data' =>
          let results' := match data'.results with
            | some rs => results ++ rs.take (maxResults - results.length)
            | none => results
          nearbySearchLoop rest maxResults data' params' results' (log ++ [params'])
      else .ok (results.take maxResults, log)

/-- The pagination portion of `MapsAPI.nearby_search`, translated from
its own source lines. -/
def nearbySearchPaginate (bodies : List ResponseBody) (maxResults : Nat)
    (params : Params) : Except RunError (List Item × List Params) :=
  match bodies with
  | [] => .error .traceExhausted
  | b :: rest =>
    match classifyBody false b with
    | .error e => .error (.api e)
    | .ok data =>
      let results := match data.results with
        | some rs => rs.take maxResults
        | none => []
      nearbySearchLoop rest maxResults data params results [params]

/-! ## Helper lemmas -/

lemma take_append_take {α : Type} (A Y : List α) (n : Nat) :
    (A.take n ++ Y).take n = (A ++ Y).take n := by
  have h : n - min n A.length = n - A.length := by omega
  rw [List.take_append_eq_append_take, List.take_append_eq_append_take,
    List.take_take, Nat.min_self, List.length_take, h]

lemma take_mid {α : Type} (R A Y : List α) (M : Nat) :
    ((R ++ A.take (M - R.length)) ++ Y).take M = ((R ++ A) ++ Y).take M := by
  calc ((R ++ A.take (M - R.length)) ++ Y).take M
      = (R ++ (A.take (M - R.length) ++ Y)).take M := by rw [List.append_assoc]
    _ = R.take M ++ (A.take (M - R.length) ++ Y).take (M - R.length) :=
        List.take_append_eq_append_take
    _ = R.take M ++ (A ++ Y).take (M - R.length) := by rw [take_append_take]
    _ = (R ++ (A ++ Y)).take M := List.take_append_eq_append_take.symm
    _ = ((R ++ A) ++ Y).take M := by rw [List.append_assoc]

lemma joinedItems_nil : joinedItems [] = [] := rfl

lemma joinedItems_cons (b : ResponseBody) (l : List ResponseBody) :
    joinedItems (b :: l) = itemsOf b ++ joinedItems l := by
  simp [joinedItems]

lemma totalItems_nil : totalItems [] = 0 := rfl

lemma totalItems_cons (b : ResponseBody) (l : List ResponseBody) :
    totalItems (b :: l) = numItems b + totalItems l := by
  simp [totalItems]

lemma joinedItems_length (l : List ResponseBody) :
    (joinedItems l).length = totalItems l := by
  induction l with
  | nil => rfl
  | cons b t ih =>
    rw [joinedItems_cons, totalItems_cons, List.length_append, ih]
    rfl

lemma classifyBody_ok_iff (b data' : ResponseBody) :
    classifyBody false b = .ok data' ↔ checkStatus b.status = true ∧ data' = b := by
  unfold classifyBody
  by_cases h : checkStatus b.status = true <;>
    simp [h, eq_comm]

lemma classifyBody_err (b : ResponseBody) (h : checkStatus b.status = false) :
    classifyBody false b =
      .error ⟨b.status.getD "UNKNOWN_ERROR", b.errorMessage.getD "Unknown error"⟩ := by
  unfold classifyBody
  simp [h]

/-- The two pagination loops, translated separately from the two source
methods, are the same function. -/
lemma nearbyLoop_eq_searchLoop :
    ∀ (bodies : List ResponseBody) (M : Nat) (data : ResponseBody) (ps : Params)
      (results : List Item) (log : List Params),
      nearbySearchLoop bodies M data ps results log =
        searchPlacesLoop bodies M data ps results log := by
  intro bodies
  induction bodies with
  | nil => intro M data ps results log; rfl
  | cons b rest ih =>
    intro M data ps results log
    simp only [nearbySearchLoop, searchPlacesLoop]
    rcases data.nextPageToken with _ | tok
    · rfl
    · simp only
      by_cases hlt : results.length < M
      · simp only [hlt, if_true]
        rcases classifyBody false b with e | data'
        · rfl
        · simp only
          rcases data'.results with _ | rs <;> apply ih
      · simp [hlt]

/-- The two pagination entry points agree on every trace, target count
and parameter dictionary. -/
lemma nearbyPaginate_eq_searchPaginate (bodies : List ResponseBody) (M : Nat)
    (ps : Params) :
    nearbySearchPaginate bodies M ps = searchPlacesPaginate bodies M ps := by
  rcases bodies with _ | ⟨b, rest⟩
  · rfl
  · simp only [nearbySearchPaginate, searchPlacesPaginate]
    rcases classifyBody false b with e | data
    · rfl
    · simp only
      rcases data.results with _ | rs <;> apply nearbyLoop_eq_searchLoop

/-- Full characterization of a successful run of the pagination loop:
there is a number `k` of pages fetched by the loop such that the
request log grew by `k`, the returned items are the accumulated ones
truncated at the target, every fetched page was needed (the running
total was still below the target before each fetch) and good, and
every fetched page except the last carried a continuation token. -/
lemma searchPlacesLoop_ok_spec :
    ∀ (bodies : List ResponseBody) (data : ResponseBody) (ps : Params)
      (results : List Item) (log : List Params) (M : Nat)
      (items : List Item) (log' : List Params),
      results.length ≤ M →
      searchPlacesLoop bodies M data ps results log = .ok (items, log') →
      ∃ k, k ≤ bodies.length ∧
        log'.length = log.length + k ∧
        items = (results ++ joinedItems (bodies.take k)).take M ∧
        (∀ j, j < k → results.length + totalItems (bodies.take j) < M) ∧
        (∀ j, j < k → ∃ b, bodies[j]? = some b ∧ checkStatus b.status = true) ∧
        (k ≠ 0 → data.nextPageToken.isSome = true) ∧
        (∀ j, j + 1 < k → ∃ b, bodies[j]? = some b ∧ b.nextPageToken.isSome = true) := by
  intro bodies
  induction bodies with
  | nil =>
    intro data ps results log M items log' hle h
    rcases htok : data.nextPageToken with _ | tok
    · simp only [searchPlacesLoop, htok] at h
      obtain ⟨hi, hl⟩ : results.take M = items ∧ log = log' := by
        simpa using h
      refine ⟨0, Nat.zero_le _, by rw [← hl]; omega, ?_, fun j hj => absurd hj (by omega),
        fun j hj => absurd hj (by omega), fun h0 => absurd rfl h0,
        fun j hj => absurd hj (by omega)⟩
      rw [← hi]; simp [joinedItems]
    · by_cases hlt : results.length < M
      · simp [searchPlacesLoop, htok, hlt] at h
      · simp only [searchPlacesLoop, htok, hlt, if_false] at h
        obtain ⟨hi, hl⟩ : results.take M = items ∧ log = log' := by
          simpa using h
        refine ⟨0, Nat.zero_le _, by rw [← hl]; omega, ?_, fun j hj => absurd hj (by omega),
          fun j hj => absurd hj (by omega), fun h0 => absurd rfl h0,
          fun j hj => absurd hj (by omega)⟩
        rw [← hi]; simp [joinedItems]
  | cons b rest ih =>
    intro data ps results log M items log' hle h
    rcases htok : data.nextPageToken with _ | tok
    · simp only [searchPlacesLoop, htok] at h
      obtain ⟨hi, hl⟩ : results.take M = items ∧ log = log' := by
        simpa using h
      refine ⟨0, Nat.zero_le _, by rw [← hl]; omega, ?_, fun j hj => absurd hj (by omega),
        fun j hj => absurd hj (by omega), fun h0 => absurd rfl h0,
        fun j hj => absurd hj (by omega)⟩
      rw [← hi]; simp [joinedItems]
    · by_cases hlt : results.length < M
      · rcases hc : classifyBody false b with e | data'
        · simp [searchPlacesLoop, htok, hlt, hc] at h
        · obtain ⟨hgood, hdb⟩ := (classifyBody_ok_iff b data').mp hc
          have hcb : classifyBody false b = .ok b := by rw [hc, hdb]
          rcases hrs : b.results with _ | rs
          · -- page without a results collection: nothing accumulated
            simp only [searchPlacesLoop, htok, hlt, if_true, hcb, hrs] at h
            obtain ⟨k, hk, hlog, hitems, hcount, hstatus, hdata, htoks⟩ :=
              ih b (setParam ps "pagetoken" tok) results (log ++ [setParam ps "pagetoken" tok])
                M items log' hle h
            have hib : itemsOf b = [] := by simp [itemsOf, hrs]
            have hnb : numItems b = 0 := by simp [numItems, hib]
            refine ⟨k + 1, by simpa using Nat.succ_le_succ hk, ?_, ?_, ?_, ?_, ?_, ?_⟩
            · rw [hlog, List.length_append]; simp; omega
            · rw [List.take_succ_cons, joinedItems_cons, hib, List.nil_append]
              exact hitems
            · intro j hj
              match j with
              | 0 => simpa using hlt
              | j' + 1 =>
                rw [List.take_succ_cons, totalItems_cons, hnb]
                have := hcount j' (by omega)
                omega
            · intro j hj
              match j with
              | 0 => exact ⟨b, by simp, hgood⟩
              | j' + 1 => simpa using hstatus j' (by omega)
            · intro _; simp [htok]
            · intro j hj
              match j with
              | 0 => exact ⟨b, by simp, hdata (by omega)⟩
              | j' + 1 => simpa using htoks j' (by omega)
          · -- page with a results collection
            simp only [searchPlacesLoop, htok, hlt, if_true, hcb, hrs] at h
            have hle' : (results ++ rs.take (M - results.length)).length ≤ M := by
              rw [List.length_append, List.length_take]; omega
            obtain ⟨k, hk, hlog, hitems, hcount, hstatus, hdata, htoks⟩ :=
              ih b (setParam ps "pagetoken" tok)
                (results ++ rs.take (M - results.length))
                (log ++ [setParam ps "pagetoken" tok]) M items log' hle' h
            have hib : itemsOf b = rs := by simp [itemsOf, hrs]
            have hnb : numItems b = rs.length := by simp [numItems, hib]
            refine ⟨k + 1, by simpa using Nat.succ_le_succ hk, ?_, ?_, ?_, ?_, ?_, ?_⟩
            · rw [hlog, List.length_append]; simp; omega
            · rw [List.take_succ_cons, joinedItems_cons, hib, ← List.append_assoc,
                ← take_mid results rs (joinedItems (rest.take k)) M]
              exact hitems
            · intro j hj
              match j with
              | 0 => simpa using hlt
              | j' + 1 =>
                rw [List.take_succ_cons, totalItems_cons, hnb]
                have := hcount j' (by omega)
                rw [List.length_append, List.length_take] at this
                omega
            · intro j hj
              match j with
              | 0 => exact ⟨b, by simp, hgood⟩
              | j' + 1 => simpa using hstatus j' (by omega)
            · intro _; simp [htok]
            · intro j hj
              match j with
              | 0 => exact ⟨b, by simp, hdata (by omega)⟩
              | j' + 1 => simpa using htoks j' (by omega)
      · simp only [searchPlacesLoop, htok, hlt, if_false] at h
        obtain ⟨hi, hl⟩ : results.take M = items ∧ log = log' := by
          simpa using h
        refine ⟨0, Nat.zero_le _, by rw [← hl]; omega, ?_, fun j hj => absurd hj (by omega),
          fun j hj => absurd hj (by omega), fun h0 => absurd rfl h0,
          fun j hj => absurd hj (by omega)⟩
        rw [← hi]; simp [joinedItems]

/-- If the loop, while still needing pages, reaches a page whose status
check fails, the whole run returns exactly that page's
`RemoteAPIError`. -/
lemma searchPlacesLoop_err_spec :
    ∀ (gs : List ResponseBody) (bad : ResponseBody) (rest : List ResponseBody)
      (data : ResponseBody) (ps : Params) (results : List Item)
      (log : List Params) (M : Nat),
      (∀ g ∈ gs, checkStatus g.status = true ∧ g.nextPageToken.isSome = true) →
      data.nextPageToken.isSome = true →
      results.length + totalItems gs < M →
      checkStatus bad.status = false →
      searchPlacesLoop (gs ++ bad :: rest) M data ps results log =
        .error (.api ⟨bad.status.getD "UNKNOWN_ERROR",
          bad.errorMessage.getD "Unknown error"⟩) := by
  intro gs
  induction gs with
  | nil =>
    intro bad rest data ps results log M _hg hd hsum hbad
    obtain ⟨tok, htok⟩ := Option.isSome_iff_exists.mp hd
    have hlt : results.length < M := by
      rw [totalItems_nil] at hsum; omega
    simp [searchPlacesLoop, htok, hlt, classifyBody_err bad hbad]
  | cons g gs' ih =>
    intro bad rest data ps results log M hg hd hsum hbad
    obtain ⟨tok, htok⟩ := Option.isSome_iff_exists.mp hd
    obtain ⟨hgood, hgtok⟩ := hg g (List.mem_cons_self g gs')
    rw [totalItems_cons] at hsum
    have hlt : results.length < M := by omega
    have hcls : classifyBody false g = .ok g := (classifyBody_ok_iff g g).mpr ⟨hgood, rfl⟩
    have hg' : ∀ g' ∈ gs', checkStatus g'.status = true ∧ g'.nextPageToken.isSome = true :=
      fun g' hh => hg g' (List.mem_cons_of_mem g hh)
    rcases hrs : g.results with _ | rs
    · have hnb : numItems g = 0 := by simp [numItems, itemsOf, hrs]
      simp only [List.cons_append, searchPlacesLoop, htok, hlt, if_true, hcls, hrs]
      exact ih bad rest g _ results _ M hg' hgtok (by omega) hbad
    · have hnb : numItems g = rs.length := by simp [numItems, itemsOf, hrs]
      simp only [List.cons_append, searchPlacesLoop, htok, hlt, if_true, hcls, hrs]
      refine ih bad rest g _ _ _ M hg' hgtok ?_ hbad
      rw [List.length_append, List.length_take]
      omega

/-! ## Claim theorems (Account Store and response classification) -/

/-- Claim C5: on a 2xx body of a status-field endpoint
(`use_user_data_api=False`), status `OK` or `ZERO_RESULTS` succeeds with
the parsed body, and every other status (including an absent one) fails
with a `RemoteAPIError` carrying the status (default `UNKNOWN_ERROR`)
and the body's error message (default "Unknown error"). -/
theorem c5_status_field_classification (b : ResponseBody) :
    classifyBody false b =
      if b.status = some "OK" ∨ b.status = some "ZERO_RESULTS" then .ok b
      else .error ⟨b.status.getD "UNKNOWN_ERROR", b.errorMessage.getD "Unknown error"⟩ := by
  unfold classifyBody checkStatus
  rcases b.status with _ | s
  · simp
  · by_cases h1 : s = "OK" <;> by_cases h2 : s = "ZERO_RESULTS" <;> simp [h1, h2]

/-- Claim C7: after every completed `set_default_account` call, the
written document has the given name as default, and that name is a
member of the (now present) accounts list; the whole update is one new
document, so no persisted state has a default outside the accounts
list. -/
theorem c7_default_account_invariant (c : AccountsConfig) (name : String) :
    (set_default_account c name).defaultAccount = some name ∧
    name ∈ (set_default_account c name).accounts.getD [] ∧
    (set_default_account c name).accounts.isSome = true := by
  unfold set_default_account
  rcases c.accounts with _ | a
  · simp
  · by_cases h : name ∈ a <;> simp [h]

/-- Claim C8 counterexample: on a registry whose accounts list already
holds "work" twice, one `set_default_account "work"` call leaves two
entries, refuting "exactly one entry for that name ... for every
registry state". -/
theorem c8_counterexample :
    ((set_default_account ⟨none, some ["work", "work"]⟩ "work").accounts.getD
      []).count "work" ≠ 1 := by
  decide

/-- Claim C8 (amended): for every registry state and name,
`set_default_account` is idempotent and makes the name the default; the
name's entry count after the call is `max 1` of its prior count — in
particular exactly one whenever the name occurred at most once before
(as in every registry produced by the store's own operations). -/
theorem c8_register_promote_idempotent (c : AccountsConfig) (name : String) :
    set_default_account (set_default_account c name) name =
      set_default_account c name ∧
    (set_default_account c name).defaultAccount = some name ∧
    ((set_default_account c name).accounts.getD []).count name =
      max 1 ((c.accounts.getD []).count name) := by
  refine ⟨?_, ?_, ?_⟩
  · unfold set_default_account
    rcases c.accounts with _ | a
    · simp
    · by_cases h : name ∈ a <;> simp [h]
  · rfl
  · unfold set_default_account
    rcases c.accounts with _ | a
    · simp
    · by_cases h : name ∈ a
      · have hpos : 0 < a.count name := List.count_pos_iff.mpr h
        have hmax : max 1 (a.count name) = a.count name := by omega
        simp [h, hmax]
      · have hz : a.count name = 0 := by
          exact List.count_eq_zero.mpr h
        simp [h, hz]

/-- Claim C10: for the same trace of page responses, the same
`max_results` and the same parameter dictionary, the pagination loops
of `search_places` and `nearby_search` return the same item list and
issue the same requests (same count, same token merging); they differ
only in endpoint path and initial parameter construction. -/
theorem c10_pagination_loops_equivalent (bodies : List ResponseBody) (M : Nat)
    (ps : Params) :
    nearbySearchPaginate bodies M ps = searchPlacesPaginate bodies M ps :=
  nearbyPaginate_eq_searchPaginate bodies M ps

/-! ## Claim theorems (pagination) -/

/-- Claim C3: a successful pagination run over the pages it fetched
(`log.length` of them) returns exactly the fetched pages' items in page
order and within-page order, truncated at `max_results` — hence
`min(M, total)` items; no page beyond the first was fetched once the
running total had reached `M`; every fetched page except possibly the
last carried a continuation token (the loop stops at a token-less
page); and `nearby_search` behaves identically. -/
theorem c3_pagination_accounting (bodies : List ResponseBody) (M : Nat)
    (ps : Params) (items : List Item) (log : List Params)
    (h : searchPlacesPaginate bodies M ps = .ok (items, log)) :
    1 ≤ log.length ∧ log.length ≤ bodies.length ∧
    items = (joinedItems (bodies.take log.length)).take M ∧
    items.length = min M (totalItems (bodies.take log.length)) ∧
    (∀ j, 0 < j → j < log.length → totalItems (bodies.take j) < M) ∧
    (∀ j, j < log.length → ∃ b, bodies[j]? = some b ∧ checkStatus b.status = true) ∧
    (∀ j, j + 1 < log.length →
      ∃ b, bodies[j]? = some b ∧ b.nextPageToken.isSome = true) ∧
    nearbySearchPaginate bodies M ps = .ok (items, log) := by
  rcases bodies with _ | ⟨b, rest⟩
  · simp [searchPlacesPaginate] at h
  · rcases hc : classifyBody false b with e | data
    · simp [searchPlacesPaginate, hc] at h
    · obtain ⟨hgood, hdb⟩ := (classifyBody_ok_iff b data).mp hc
      have hcb : classifyBody false b = .ok b := by rw [hc, hdb]
      have h' : searchPlacesLoop rest M b ps ((itemsOf b).take M) [ps] =
          .ok (items, log) := by
        rcases hrs : b.results with _ | rs
        · simpa [searchPlacesPaginate, hcb, hrs, itemsOf] using h
        · simpa [searchPlacesPaginate, hcb, hrs, itemsOf] using h
      obtain ⟨k, hk, hlog, hitems, hcount, hstatus, hdata, htoks⟩ :=
        searchPlacesLoop_ok_spec rest b ps ((itemsOf b).take M) [ps] M items log
          (by rw [List.length_take]; omega) h'
      have hlen : log.length = k + 1 := by
        rw [hlog]; simp; omega
      have hIE : items = (joinedItems ((b :: rest).take log.length)).take M := by
        rw [hlen, List.take_succ_cons, joinedItems_cons, hitems, take_append_take]
      refine ⟨by omega, ?_, hIE, ?_, ?_, ?_, ?_, ?_⟩
      · simp only [List.length_cons]; omega
      · rw [hIE, List.length_take, joinedItems_length]
      · intro j h0 hj
        match j with
        | j' + 1 =>
          rw [List.take_succ_cons, totalItems_cons]
          have hc' := hcount j' (by omega)
          rw [List.length_take] at hc'
          have hnb : numItems b = (itemsOf b).length := rfl
          omega
      · intro j hj
        match j with
        | 0 => exact ⟨b, by simp, hgood⟩
        | j' + 1 => simpa using hstatus j' (by omega)
      · intro j hj
        match j with
        | 0 => exact ⟨b, by simp, hdata (by omega)⟩
        | j' + 1 => simpa using htoks j' (by omega)
      · rw [nearbyPaginate_eq_searchPaginate]; exact h

/-- Claim C3 witness: a concrete two-page run with `max_results = 5`
(3 items on page one, 3 more on page two) returns exactly
`min(5, 6) = 5` items in order. -/
theorem c3_pagination_accounting_witness :
    searchPlacesPaginate
        [⟨some "OK", none, some [1, 2, 3], some "t"⟩,
          ⟨some "OK", none, some [4, 5, 6], none⟩] 5 [("query", "q")] =
      .ok ([1, 2, 3, 4, 5],
        [[("query", "q")], [("query", "q"), ("pagetoken", "t")]]) ∧
    ([1, 2, 3, 4, 5] : List Item) =
      (joinedItems ([⟨some "OK", none, some [1, 2, 3], some "t"⟩,
        ⟨some "OK", none, some [4, 5, 6], none⟩].take 2)).take 5 ∧
    ([1, 2, 3, 4, 5] : List Item).length =
      min 5 (totalItems ([⟨some "OK", none, some [1, 2, 3], some "t"⟩,
        ⟨some "OK", none, some [4, 5, 6], none⟩].take 2)) :=
  ⟨rfl,
    (c3_pagination_accounting
      [⟨some "OK", none, some [1, 2, 3], some "t"⟩,
        ⟨some "OK", none, some [4, 5, 6], none⟩] 5 [("query", "q")]
      [1, 2, 3, 4, 5]
      [[("query", "q")], [("query", "q"), ("pagetoken", "t")]] rfl).2.2.1,
    (c3_pagination_accounting
      [⟨some "OK", none, some [1, 2, 3], some "t"⟩,
        ⟨some "OK", none, some [4, 5, 6], none⟩] 5 [("query", "q")]
      [1, 2, 3, 4, 5]
      [[("query", "q")], [("query", "q"), ("pagetoken", "t")]] rfl).2.2.2.1⟩

/-- Claim C4: if the loop, after any run of good token-bearing pages it
still needed, fetches a page whose status check fails, the whole
operation (for both endpoints) returns that page's `RemoteAPIError` and
no accumulated items reach the caller. -/
theorem c4_error_aborts_pagination (gs : List ResponseBody) (bad : ResponseBody)
    (rest : List ResponseBody) (M : Nat) (ps : Params)
    (hg : ∀ g ∈ gs, checkStatus g.status = true ∧ g.nextPageToken.isSome = true)
    (hsum : totalItems gs < M)
    (hbad : checkStatus bad.status = false) :
    searchPlacesPaginate (gs ++ bad :: rest) M ps =
      .error (.api ⟨bad.status.getD "UNKNOWN_ERROR",
        bad.errorMessage.getD "Unknown error"⟩) ∧
    nearbySearchPaginate (gs ++ bad :: rest) M ps =
      .error (.api ⟨bad.status.getD "UNKNOWN_ERROR",
        bad.errorMessage.getD "Unknown error"⟩) ∧
    ∀ out : List Item × List Params,
      searchPlacesPaginate (gs ++ bad :: rest) M ps ≠ .ok out := by
  have hs : searchPlacesPaginate (gs ++ bad :: rest) M ps =
      .error (.api ⟨bad.status.getD "UNKNOWN_ERROR",
        bad.errorMessage.getD "Unknown error"⟩) := by
    rcases gs with _ | ⟨g, gs'⟩
    · simp only [List.nil_append, searchPlacesPaginate, classifyBody_err bad hbad]
    · obtain ⟨hgood, hgtok⟩ := hg g (List.mem_cons_self g gs')
      have hcls : classifyBody false g = .ok g :=
        (classifyBody_ok_iff g g).mpr ⟨hgood, rfl⟩
      rw [totalItems_cons] at hsum
      have hg' : ∀ g' ∈ gs', checkStatus g'.status = true ∧
          g'.nextPageToken.isSome = true :=
        fun g' hh => hg g' (List.mem_cons_of_mem g hh)
      rcases hrs : g.results with _ | rs
      · have hnb : numItems g = 0 := by simp [numItems, itemsOf, hrs]
        simp only [List.cons_append, searchPlacesPaginate, hcls, hrs]
        exact searchPlacesLoop_err_spec gs' bad rest g ps [] [ps] M hg' hgtok
          (by simpa using by omega) hbad
      · have hnb : numItems g = rs.length := by simp [numItems, itemsOf, hrs]
        simp only [List.cons_append, searchPlacesPaginate, hcls, hrs]
        refine searchPlacesLoop_err_spec gs' bad rest g ps (rs.take M) [ps] M hg'
          hgtok ?_ hbad
        rw [List.length_take]
        omega
  refine ⟨hs, by rw [nearbyPaginate_eq_searchPaginate]; exact hs, ?_⟩
  intro out hout
  rw [hs] at hout
  exact absurd hout (by simp)

/-- Claim C4 witness: a three-page trace whose second page is a
`REQUEST_DENIED` rejection makes the whole run fail with that error
(the two items of page one are discarded). -/
theorem c4_error_aborts_pagination_witness :
    totalItems [⟨some "OK", none, some [1, 2], some "t"⟩] < 20 ∧
    checkStatus (⟨some "REQUEST_DENIED", some "bad key", none, none⟩ :
      ResponseBody).status = false ∧
    searchPlacesPaginate
        ([⟨some "OK", none, some [1, 2], some "t"⟩] ++
          (⟨some "REQUEST_DENIED", some "bad key", none, none⟩ : ResponseBody) ::
            [⟨some "OK", none, some [9], none⟩]) 20 [] =
      .error (.api ⟨"REQUEST_DENIED", "bad key"⟩) :=
  ⟨by decide, by decide,
    (c4_error_aborts_pagination [⟨some "OK", none, some [1, 2], some "t"⟩]
      ⟨some "REQUEST_DENIED", some "bad key", none, none⟩
      [⟨some "OK", none, some [9], none⟩] 20 [] (by decide) (by decide)
      (by decide)).1⟩

/-! ## Claim theorems (credential resolution) -/

/-- Claim C1 (actual code behaviour at the failing input): for an
account whose stored token is expired with no refresh token, token-mode
resolution returns the stored invalid credentials object — not `None` —
so `MapsAPI` construction succeeds; the stored state is unchanged and no
refresh or write happens. -/
theorem c1_expired_token_without_refresh :
    check_auth ⟨.stored ⟨some "tok", true, none⟩, .absent⟩ none true =
      ⟨.vCreds ⟨some "tok", true, none⟩, .stored ⟨some "tok", true, none⟩,
        [.checkTokenPath]⟩ ∧
    mapsApiInit ⟨.stored ⟨some "tok", true, none⟩, .absent⟩ none true =
      (.ok ⟨some ⟨some "tok", true, none⟩, .vNone⟩, [.checkTokenPath]) ∧
    OAuthCreds.valid ⟨some "tok", true, none⟩ = false :=
  ⟨rfl, rfl, rfl⟩

/-- Claim C2 counterexample: a constructed client holding an expired
refreshable credential performs a refresh attempt inside the request
layer (`_make_request`), refuting "never during an individual
request". -/
theorem c2_counterexample :
    Event.refreshAttempt ∈
      (makeRequestAuthPrep ⟨some ⟨some "tok", true, some "r"⟩, .vNone⟩
        (some ⟨some "tok2", false, some "r"⟩)).2 := by
  decide

/-- Claim C2 (amended): `_make_request` attempts at most one refresh per
request, and attempts one exactly when the held credential is invalid,
expired and refreshable; within one resolution call
(`get_oauth_credentials`) a refresh is likewise attempted at most
once. -/
theorem c2_refresh_discipline (cs : ClientState) (rr : Option OAuthCreds) :
    (makeRequestAuthPrep cs rr).2.count .refreshAttempt ≤ 1 ∧
    (Event.refreshAttempt ∈ (makeRequestAuthPrep cs rr).2 ↔
      ∃ c, cs.oauthCreds = some c ∧ c.valid = false ∧
        (c.expired && c.refreshToken.isSome) = true) ∧
    (∀ (st : StoredToken) (rr' : Option OAuthCreds),
      (get_oauth_credentials st rr').events.count .refreshAttempt ≤ 1) := by
  refine ⟨?_, ?_, ?_⟩
  · rcases cs with ⟨oc, ak⟩
    rcases oc with _ | c
    · simp [makeRequestAuthPrep]
    · by_cases hv : c.valid
      · simp [makeRequestAuthPrep, hv]
      · by_cases hr : c.expired && c.refreshToken.isSome
        · rcases rr with _ | c' <;> simp [makeRequestAuthPrep, hv, hr]
        · simp [makeRequestAuthPrep, hv, hr]
  · rcases cs with ⟨oc, ak⟩
    rcases oc with _ | c
    · simp [makeRequestAuthPrep]
    · by_cases hv : c.valid
      · simp [makeRequestAuthPrep, hv]
      · by_cases hr : c.expired && c.refreshToken.isSome
        · rcases rr with _ | c' <;>
            simp [makeRequestAuthPrep, hv, hr] <;>
            simpa using hr
        · simp [makeRequestAuthPrep, hv, hr]
          intro h2
          rcases hrt : c.refreshToken with _ | r
          · rfl
          · exact absurd (by simp [h2, hrt]) hr
  · intro st rr'
    rcases st with _ | _ | c
    · simp [get_oauth_credentials]
    · simp [get_oauth_credentials]
    · by_cases hv : c.valid
      · simp [get_oauth_credentials, hv]
      · by_cases hr : c.expired && c.refreshToken.isSome
        · rcases rr' with _ | c' <;> simp [get_oauth_credentials, hv, hr]
        · simp [get_oauth_credentials, hv, hr]

/-- Claim C6 counterexample: an account with an expired refreshable
token whose refresh fails and an account with nothing configured get
the very same failure value (`None`) and the same remediation hint —
there is no distinct stale-credential kind in the returned value. -/
theorem c6_counterexample :
    (check_auth ⟨.stored ⟨some "t", true, some "r"⟩, .absent⟩ none true).result =
      (check_auth ⟨.absent, .absent⟩ none true).result ∧
    (check_auth ⟨.stored ⟨some "t", true, some "r"⟩, .absent⟩ none true).result =
      .vNone ∧
    Event.msgNoOAuth ∈
      (check_auth ⟨.stored ⟨some "t", true, some "r"⟩, .absent⟩ none true).events ∧
    Event.msgNoOAuth ∈ (check_auth ⟨.absent, .absent⟩ none true).events := by
  refine ⟨rfl, rfl, by decide, by decide⟩

/-- Claim C6 (amended): both the stale-credential failure (token found
but refresh failed) and the never-configured failure return `None` and
print the same "run maps init --oauth" hint; the stale path is
distinguishable only by an extra "Error refreshing OAuth token"
diagnostic printed before it. -/
theorem c6_stale_vs_unconfigured (c : OAuthCreds) (hexp : c.expired = true)
    (href : c.refreshToken.isSome = true) :
    (check_auth ⟨.stored c, .absent⟩ none true).result = .vNone ∧
    (check_auth ⟨.stored c, .absent⟩ none true).events =
      [.checkTokenPath, .refreshAttempt, .errRefreshToken, .msgNoOAuth] ∧
    (check_auth ⟨.absent, .absent⟩ none true).result = .vNone ∧
    (check_auth ⟨.absent, .absent⟩ none true).events =
      [.checkTokenPath, .msgNoOAuth] ∧
    Event.errRefreshToken ∉ (check_auth ⟨.absent, .absent⟩ none true).events := by
  have hv : c.valid = false := by simp [OAuthCreds.valid, hexp]
  refine ⟨?_, ?_, rfl, rfl, by decide⟩
  · simp [check_auth, get_oauth_credentials, hv, hexp, href]
  · simp [check_auth, get_oauth_credentials, hv, hexp, href]

/-- Claim C6 witness: the amended statement at a concrete expired
credential with a refresh token. -/
theorem c6_stale_vs_unconfigured_witness :
    (⟨some "t", true, some "r"⟩ : OAuthCreds).expired = true ∧
    (check_auth ⟨.stored ⟨some "t", true, some "r"⟩, .absent⟩ none true).result =
      .vNone ∧
    (check_auth ⟨.stored ⟨some "t", true, some "r"⟩, .absent⟩ none true).events =
      [.checkTokenPath, .refreshAttempt, .errRefreshToken, .msgNoOAuth] :=
  ⟨rfl, (c6_stale_vs_unconfigured ⟨some "t", true, some "r"⟩ rfl rfl).1,
    (c6_stale_vs_unconfigured ⟨some "t", true, some "r"⟩ rfl rfl).2.1⟩

/-- Claim C9: for an account holding only a (nonempty) static key,
key-or-fallback resolution and default `MapsAPI` construction return
the key session, and the token storage is never touched: no token load
and no refresh attempt occurs. -/
theorem c9_static_key_resolution (k : String) (hk : k.isEmpty = false)
    (rr : Option OAuthCreds) :
    check_auth ⟨.absent, .stored k⟩ rr false =
      ⟨.vStr k, .absent, [.checkKeyPath]⟩ ∧
    mapsApiInit ⟨.absent, .stored k⟩ rr false =
      (.ok ⟨none, .vStr k⟩, [.checkKeyPath]) ∧
    Event.checkTokenPath ∉ (check_auth ⟨.absent, .stored k⟩ rr false).events ∧
    Event.refreshAttempt ∉ (check_auth ⟨.absent, .stored k⟩ rr false).events := by
  have h1 : check_auth ⟨.absent, .stored k⟩ rr false =
      ⟨.vStr k, .absent, [.checkKeyPath]⟩ := by
    simp [check_auth, get_api_key, hk]
  refine ⟨h1, ?_, ?_, ?_⟩
  · simp [mapsApiInit, h1, PyAuthVal.truthy, hk]
  · rw [h1]; simp
  · rw [h1]; simp

/-- Claim C9 witness: the statement at the concrete key "ABC". -/
theorem c9_static_key_resolution_witness :
    ("ABC" : String).isEmpty = false ∧
    check_auth ⟨.absent, .stored "ABC"⟩ none false =
      ⟨.vStr "ABC", .absent, [.checkKeyPath]⟩ ∧
    mapsApiInit ⟨.absent, .stored "ABC"⟩ none false =
      (.ok ⟨none, .vStr "ABC"⟩, [.checkKeyPath]) :=
  ⟨rfl, (c9_static_key_resolution "ABC" rfl none).1,
    (c9_static_key_resolution "ABC" rfl none).2.1⟩

end GoogleMapsCli
